import Mathlib

/-!
Shallow embedding of the key-classification and provider-usage-probing
engine of `dashboard.py` (single-file Flask service).  Pure string logic
(`detect_key_type`, `mask_api_key`, `get_error_details`) is translated
directly; the outbound HTTP calls of the `fetch_*_usage` family are
modelled by an explicit oracle value describing, for each call the code
can make, whether the call returned an HTTP response (status code, body
text, and what `response.json()` would yield on that body: a dict, a
non-dict JSON value, or a parse failure) or raised
`requests.exceptions.RequestException` (a network-level failure).
Python dictionaries that the probes build are modelled by a record with
optional fields, one per key the code can set; an exception that escapes
a probe is modelled by `Except.error`.
-/

/-- Model of Python `s.startswith(p)`: the characters of `p` are an initial
segment of the characters of `s`. -/
def py_startswith (s p : String) : Bool :=
  p.data.isPrefixOf s.data

/-- Helper for `py_contains`: does `needle` occur as a contiguous run
inside the character list? -/
def containsAux (needle : List Char) : List Char → Bool
  | [] => needle.isEmpty
  | c :: rest => needle.isPrefixOf (c :: rest) || containsAux needle rest

/-- Model of Python `needle in hay` on strings (contiguous substring test). -/
def py_contains (hay needle : String) : Bool :=
  containsAux needle.data hay.data

/-- Result of `detect_key_type`: the dict `{'provider': ..., 'type': ...}`.
The Python key `type` is spelled `ktype` here (`type` is reserved in Lean). -/
structure KeyInfo where
  provider : String
  ktype : String
deriving DecidableEq

/-- Translation of `detect_key_type` (dashboard.py lines 243-256), branch for
branch in source order.  Note the source tests the bare `sk-` before
`sk-ant-`. -/
def detect_key_type (api_key : String) : KeyInfo :=
  if py_startswith api_key "sk-admin-" then ⟨"openai", "admin"⟩
  else if py_startswith api_key "sk-proj-" then ⟨"openai", "project"⟩
  else if py_startswith api_key "sk-" then ⟨"openai", "project"⟩
  else if py_startswith api_key "sk-ant-" then ⟨"anthropic", "project"⟩
  else if py_startswith api_key "BSA" then ⟨"brave", "search"⟩
  else ⟨"unknown", "unknown"⟩

/-- Translation of `mask_api_key` (dashboard.py lines 103-109).
Python `full_key[:n]` is `take n` on the character list; `full_key[-6:]`
is `drop (length - 6)` (the branch guarantees length > 20 ≥ 6). -/
def mask_api_key (full_key : String) : String :=
  if full_key.length > 20 then
    ⟨full_key.data.take 12⟩ ++ "..." ++ ⟨full_key.data.drop (full_key.length - 6)⟩
  else
    ⟨full_key.data.take 8⟩ ++ "..."

/-- ErrorExplanation record: the dict shape returned by `get_error_details`. -/
structure ErrorDetails where
  icon : String
  title : String
  description : String
  solutions : List String
deriving DecidableEq

/-- Specialized explanation returned when the raw message mentions a
permission-scope problem (dashboard.py lines 262-273). -/
def insufficient_scopes_details : ErrorDetails :=
  { icon := "🔐"
    title := "Insufficient API Key Scopes"
    description := "Your API key doesn\x27t have the required permissions (scopes) for this operation."
    solutions :=
      [ "Create a new API key with \x27All\x27 permissions in OpenAI dashboard"
      , "Ensure your role is \x27Owner\x27 or \x27Admin\x27 in the organization"
      , "Check that the key isn\x27t restricted to specific models/endpoints"
      , "For Usage API: Contact OpenAI support to enable usage monitoring permissions" ] }

/-- Bespoke explanation for HTTP 401 (dashboard.py lines 276-287). -/
def details_401 : ErrorDetails :=
  { icon := "🔑"
    title := "Authentication Failed"
    description := "Your API key is invalid, expired, or doesn\x27t have proper permissions."
    solutions :=
      [ "Check if the API key is correctly copied (no extra spaces)"
      , "Verify the key hasn\x27t been revoked in OpenAI dashboard"
      , "Ensure the key has billing enabled on your OpenAI account"
      , "Check if the key belongs to the correct organization"
      , "Try creating a new API key with \x27All\x27 permissions" ] }

/-- Bespoke explanation for HTTP 403 (dashboard.py lines 288-299). -/
def details_403 : ErrorDetails :=
  { icon := "🚫"
    title := "Permission Denied"
    description := "Your API key doesn\x27t have access to the Usage API. This is common - most OpenAI keys can\x27t access usage data."
    solutions :=
      [ "Usage API access is restricted - most API keys cannot access it"
      , "Contact OpenAI support specifically requesting Usage API access"
      , "Consider using OpenAI\x27s web dashboard for usage monitoring instead"
      , "For now, use this dashboard to test key validity and organize your keys"
      , "Note: Even \x27admin\x27 keys often don\x27t have Usage API access" ] }

/-- Bespoke explanation for HTTP 429 (dashboard.py lines 300-309). -/
def details_429 : ErrorDetails :=
  { icon := "⏱️"
    title := "Rate Limited"
    description := "You\x27re making too many requests. OpenAI has temporarily blocked further calls."
    solutions :=
      [ "Wait a few minutes before trying again"
      , "Reduce the frequency of dashboard refreshes"
      , "Consider upgrading your OpenAI plan for higher limits"
      , "Implement exponential backoff in your requests" ] }

/-- Bespoke explanation for HTTP 500 (dashboard.py lines 310-319). -/
def details_500 : ErrorDetails :=
  { icon := "🔧"
    title := "OpenAI Server Error"
    description := "OpenAI\x27s servers are experiencing issues. This is not your fault."
    solutions :=
      [ "Wait a few minutes and try again"
      , "Check OpenAI\x27s status page (status.openai.com)"
      , "Try again during off-peak hours"
      , "Contact OpenAI support if the issue persists" ] }

/-- Bespoke explanation for HTTP 404 (dashboard.py lines 320-329). -/
def details_404 : ErrorDetails :=
  { icon := "❓"
    title := "Endpoint Not Found"
    description := "The Usage API endpoint doesn\x27t exist or has changed."
    solutions :=
      [ "Usage API access is highly restricted by OpenAI"
      , "Most API keys cannot access usage endpoints"
      , "Use OpenAI\x27s web dashboard for usage monitoring"
      , "This dashboard can still help organize and test your keys" ] }

/-- Generic fallback explanation; its description is the raw message
(dashboard.py lines 332-341). -/
def unknown_error_details (error_message : String) : ErrorDetails :=
  { icon := "⚠️"
    title := "Unknown Error"
    description := error_message
    solutions :=
      [ "Check your internet connection"
      , "Verify the API key is correct"
      , "Try refreshing the page"
      , "Contact support if the issue persists" ] }

/-- The `error_mappings` dict of `get_error_details`, in source order. -/
def error_mappings : List (Nat × ErrorDetails) :=
  [ (401, details_401)
  , (403, details_403)
  , (429, details_429)
  , (500, details_500)
  , (404, details_404) ]

/-- Translation of `get_error_details` (dashboard.py lines 258-345).
`status_code` is `Option Nat` because Python callers pass `None` for
network-level failures; `error_mappings.get(status_code, default)` never
finds `None` among the integer keys, hence the `none` arm. -/
def get_error_details (error_message : String) (status_code : Option Nat) : ErrorDetails :=
  if py_contains error_message "Missing scopes" || py_contains error_message "api.model.read" then
    insufficient_scopes_details
  else
    match status_code with
    | some c => (error_mappings.lookup c).getD (unknown_error_details error_message)
    | none => unknown_error_details error_message

/-- Spec-side model of the error-explanation mapper, written from the words
of the specification (section 4.3): substring check first, regardless of
status code; then a fixed table for 401, 403, 404, 429, 500; every other
code, including an absent one, falls back to the generic explanation
carrying the raw message.  Used only to be compared with
`get_error_details`, which is translated from the source. -/
def explainSpecModel (error_message : String) (status_code : Option Nat) : ErrorDetails :=
  if py_contains error_message "Missing scopes" || py_contains error_message "api.model.read" then
    insufficient_scopes_details
  else
    match status_code with
    | none => unknown_error_details error_message
    | some c =>
      if c = 401 then details_401
      else if c = 403 then details_403
      else if c = 404 then details_404
      else if c = 429 then details_429
      else if c = 500 then details_500
      else unknown_error_details error_message

/-- Outcome of calling `response.json()` on a response, when the code does
call it: the body parsed to a JSON dict (`dict`), parsed to a JSON value
that is not a dict, such as a list or a string (`nonDict`), or failed to
parse, raising `requests.exceptions.JSONDecodeError` — a subclass of
`RequestException`, so the probes' `except` clauses catch it
(`parseFail`).  The parsed payload itself is passed through uninterpreted
and carried as a string. -/
inductive JsonOutcome where
  | dict (payload : String)
  | nonDict (payload : String)
  | parseFail (msg : String)
deriving DecidableEq

/-- Outcome of one outbound HTTP call, as observed by the code: either
`requests` returned a response object (status code, body text, and what
`response.json()` would yield on that body), or the call raised
`requests.exceptions.RequestException` with a message.  The `body`
component is consumed only where the code actually calls `.json()`. -/
inductive HttpOutcome where
  | response (status_code : Nat) (text : String) (body : JsonOutcome)
  | netError (msg : String)
deriving DecidableEq

/-- One `usage_error`/`costs_error` sub-dict of the OpenAI probe:
`{'error': ..., 'error_details': ...}`. -/
structure StepError where
  error : String
  error_details : ErrorDetails
deriving DecidableEq

/-- Normalized probe result: the dicts built by `fetch_openai_usage`,
`fetch_anthropic_usage`, `fetch_brave_usage` and the unsupported branch of
`fetch_api_usage` all fit this record; an absent dict key is `none`.
Payloads (`usage`, `costs`) carry the raw response text. -/
structure ProbeResult where
  status : String
  provider : Option String := none
  usage : Option String := none
  costs : Option String := none
  usage_error : Option StepError := none
  costs_error : Option StepError := none
  basic_access : Option Bool := none
  message : Option String := none
  error : Option String := none
  error_details : Option ErrorDetails := none
deriving DecidableEq

/-- Translation of `fetch_openai_usage` (dashboard.py lines 347-453).
`usage_oc` and `costs_oc` are the outcomes of the two outbound calls
(usage endpoint, then costs endpoint).  On a 200 usage response the code
runs `usage_json = usage_response.json()` and then
`len(usage_json.get('data', []))` in a debug print (lines 387-388) inside
a `try` that catches only `requests.exceptions.RequestException`: a body
that fails to parse raises `JSONDecodeError` (a `RequestException`), is
caught, and sets `usage_error` despite the 200; a body that parses to a
non-dict JSON value makes `.get` raise `AttributeError`, which nothing
catches — modelled as `Except.error "AttributeError"` (the escaping
exception, identified by its type), in which case the costs call never
runs.  The costs step (lines 424-428) calls only `.json()` with no
further inspection, so a non-dict body is stored like any payload and
only a parse failure sets `costs_error`.  Otherwise each step yields the
pair (payload, step error); the Python flags `has_usage`/`has_costs` are
exactly the presence of the payloads. -/
def fetch_openai_usage (api_key : String) (days : Nat)
    (usage_oc costs_oc : HttpOutcome) : Except String ProbeResult :=
  let usage_step : Except String (Option String × Option StepError) :=
    match usage_oc with
    | .response code text body =>
      if code == 200 then
        match body with
        | .dict payload => .ok (some payload, none)
        | .nonDict _ => .error "AttributeError"
        | .parseFail e => .ok (none, some ⟨"Usage API network error: " ++ e,
                                           get_error_details e none⟩)
      else .ok (none, some ⟨"Usage API failed: " ++ toString code ++ " - " ++ text,
                            get_error_details text (some code)⟩)
    | .netError e => .ok (none, some ⟨"Usage API network error: " ++ e,
                                      get_error_details e none⟩)
  let costs_step : Option String × Option StepError :=
    match costs_oc with
    | .response code text body =>
      if code == 200 then
        match body with
        | .dict payload => (some payload, none)
        | .nonDict payload => (some payload, none)
        | .parseFail e => (none, some ⟨"Costs API network error: " ++ e,
                                       get_error_details e none⟩)
      else (none, some ⟨"Costs API failed: " ++ toString code ++ " - " ++ text,
                        get_error_details text (some code)⟩)
    | .netError e => (none, some ⟨"Costs API network error: " ++ e,
                                  get_error_details e none⟩)
  match usage_step with
  | .error e => .error e
  | .ok us =>
    let has_usage := us.1.isSome
    let has_costs := costs_step.1.isSome
    .ok { provider := some "openai"
          usage := us.1
          usage_error := us.2
          costs := costs_step.1
          costs_error := costs_step.2
          status :=
            if has_usage && has_costs then "success"
            else if has_usage || has_costs then "partial"
            else "no_usage_access"
          message :=
            if has_usage || has_costs then none
            else some "API key cannot access usage monitoring endpoints" }

/-- Translation of `fetch_anthropic_usage` (dashboard.py lines 455-500):
one outbound call (minimal completion as liveness check). -/
def fetch_anthropic_usage (api_key : String) (days : Nat)
    (oc : HttpOutcome) : ProbeResult :=
  match oc with
  | .response code text _ =>
    if code == 200 then
      { provider := some "anthropic"
        status := "success"
        basic_access := some true
        message := some "Anthropic API key is working (no usage API available)" }
    else
      { provider := some "anthropic"
        status := "error"
        error := some ("Anthropic API failed: " ++ toString code ++ " - " ++ text)
        error_details := some (get_error_details text (some code)) }
  | .netError e =>
      { provider := some "anthropic"
        status := "error"
        error := some ("Anthropic API network error: " ++ e)
        error_details := some (get_error_details e none) }

/-- Translation of `fetch_brave_usage` (dashboard.py lines 502-560): a
liveness search call, then on its success a best-effort usage call whose
failure (any non-200 status, or any exception: the source catches with a
bare `except`, which also swallows a `.json()` parse failure) is ignored.
On an inner 200, `result['usage'] = usage_response.json()` stores
whatever JSON value parsed, dict or not. -/
def fetch_brave_usage (api_key : String) (days : Nat)
    (search_oc usage_oc : HttpOutcome) : ProbeResult :=
  match search_oc with
  | .response code text _ =>
    if code == 200 then
      { provider := some "brave"
        status := "success"
        basic_access := some true
        message := some "Brave Search API key is working"
        usage :=
          match usage_oc with
          | .response c2 _ b2 =>
            if c2 == 200 then
              match b2 with
              | .dict p => some p
              | .nonDict p => some p
              | .parseFail _ => none
            else none
          | .netError _ => none }
    else
      { provider := some "brave"
        status := "error"
        error := some ("Brave Search API failed: " ++ toString code ++ " - " ++ text)
        error_details := some (get_error_details text (some code)) }
  | .netError e =>
      { provider := some "brave"
        status := "error"
        error := some ("Brave Search API network error: " ++ e)
        error_details := some (get_error_details e none) }

/-- Oracle for one `fetch_api_usage` call: the outcome each outbound HTTP
call would have if the code made it.  A probe reads only the components
of the branch it dispatches to; the unsupported branch reads none. -/
structure NetOracle where
  openai_usage : HttpOutcome
  openai_costs : HttpOutcome
  anthropic_messages : HttpOutcome
  brave_search : HttpOutcome
  brave_usage : HttpOutcome
deriving DecidableEq

/-- Translation of `fetch_api_usage` (dashboard.py lines 562-581): classify
the key, dispatch to the provider-specific prober, or return the
`unsupported` dict (which has no `provider` key) without any call.  The
result is `Except` because the OpenAI branch can let an `AttributeError`
escape (see `fetch_openai_usage`); every other branch returns normally. -/
def fetch_api_usage (api_key : String) (days : Nat) (o : NetOracle) :
    Except String ProbeResult :=
  let key_info := detect_key_type api_key
  let provider := key_info.provider
  if provider == "openai" then
    fetch_openai_usage api_key days o.openai_usage o.openai_costs
  else if provider == "anthropic" then
    .ok (fetch_anthropic_usage api_key days o.anthropic_messages)
  else if provider == "brave" then
    .ok (fetch_brave_usage api_key days o.brave_search o.brave_usage)
  else
    .ok { status := "unsupported"
          message := some ("Unsupported API provider: " ++ provider)
          error := some ("API key format not recognized: " ++ ⟨api_key.data.take 10⟩ ++ "...") }

deriving instance DecidableEq for Except

/-- Success of the usage step as the code observes it: HTTP 200 and a body
that parsed to a JSON dict (the only path that sets `has_usage = True`). -/
def usageStepOk : HttpOutcome → Bool
  | .response c _ (.dict _) => c == 200
  | _ => false

/-- The usage-step outcome on which the code raises an uncaught
`AttributeError`: HTTP 200 with a body parsing to a non-dict JSON value. -/
def usageStepRaises : HttpOutcome → Bool
  | .response c _ (.nonDict _) => c == 200
  | _ => false

/-- Success of the costs step: HTTP 200 and a body that parsed as JSON
(dict or not — the code stores it without inspection). -/
def costsStepOk : HttpOutcome → Bool
  | .response c _ (.dict _) => c == 200
  | .response c _ (.nonDict _) => c == 200
  | _ => false

/-! ## Helper lemmas -/

/-- Any string that starts with `sk-ant-` also starts with `sk-`. -/
theorem py_startswith_sk_of_sk_ant (s : String)
    (h : py_startswith s "sk-ant-" = true) : py_startswith s "sk-" = true := by
  unfold py_startswith at h ⊢
  rw [List.isPrefixOf_iff_prefix] at h ⊢
  exact List.IsPrefix.trans (by decide) h

/-- Enumeration of the values `detect_key_type` can take: the `sk-ant-`
branch is dead (any match of it would already have matched `sk-`). -/
theorem detect_key_type_cases (s : String) :
    detect_key_type s = ⟨"openai", "admin"⟩ ∨ detect_key_type s = ⟨"openai", "project"⟩ ∨
    detect_key_type s = ⟨"brave", "search"⟩ ∨ detect_key_type s = ⟨"unknown", "unknown"⟩ := by
  unfold detect_key_type
  split_ifs with h1 h2 h3 h4 h5 <;> simp_all
  exact absurd (py_startswith_sk_of_sk_ant s h4) (by simp_all)

/-- The provider computed by `detect_key_type` is never `anthropic`. -/
theorem detect_key_type_provider_cases (s : String) :
    (detect_key_type s).provider = "openai" ∨ (detect_key_type s).provider = "brave" ∨
    (detect_key_type s).provider = "unknown" := by
  rcases detect_key_type_cases s with h | h | h | h <;> rw [h] <;> simp


/-- Provider field of an OpenAI probe result, whenever the probe returns
one (rather than letting an exception escape). -/
theorem fetch_openai_usage_ok_provider (k : String) (d : Nat) (uo co : HttpOutcome)
    (r : ProbeResult) (h : fetch_openai_usage k d uo co = Except.ok r) :
    r.provider = some "openai" := by
  simp only [fetch_openai_usage] at h
  split at h
  · exact Except.noConfusion h
  · rw [Except.ok.injEq] at h
    subst h
    rfl

/-- Provider field of an Anthropic probe result. -/
theorem fetch_anthropic_usage_provider (k : String) (d : Nat) (oc : HttpOutcome) :
    (fetch_anthropic_usage k d oc).provider = some "anthropic" := by
  cases oc <;> simp [fetch_anthropic_usage, apply_ite]

/-- Provider field of a Brave probe result. -/
theorem fetch_brave_usage_provider (k : String) (d : Nat) (so uo : HttpOutcome) :
    (fetch_brave_usage k d so uo).provider = some "brave" := by
  cases so <;> simp [fetch_brave_usage, apply_ite]

/-- C1: evaluation of the code at the failing input.  The spec requires
`classify("sk-ant-XXXX") = (anthropic, project)`, but `detect_key_type`
tests the bare `sk-` before `sk-ant-`, so the anthropic branch is dead and
the result is `(openai, project)`. -/
theorem detect_key_type_sk_ant_eval :
    detect_key_type "sk-ant-XXXX" = ⟨"openai", "project"⟩ := by decide

/-- C2: `detect_key_type` only ever returns one of the four classifications
`(openai, admin)`, `(openai, project)`, `(brave, search)`,
`(unknown, unknown)`; its provider is never `anthropic`, and consequently
the dispatch of `fetch_api_usage` never produces the Anthropic prober's
result. -/
theorem detect_key_type_never_anthropic (s : String) (days : Nat) (o : NetOracle) :
    (detect_key_type s = ⟨"openai", "admin"⟩ ∨ detect_key_type s = ⟨"openai", "project"⟩ ∨
     detect_key_type s = ⟨"brave", "search"⟩ ∨ detect_key_type s = ⟨"unknown", "unknown"⟩) ∧
    ((detect_key_type s).provider == "anthropic") = false ∧
    (fetch_api_usage s days o ==
      Except.ok (fetch_anthropic_usage s days o.anthropic_messages)) = false := by
  refine ⟨detect_key_type_cases s, ?_, ?_⟩
  · rcases detect_key_type_provider_cases s with h | h | h <;> rw [h] <;> decide
  · rw [beq_eq_false_iff_ne]
    intro heq
    have hp := fetch_anthropic_usage_provider s days o.anthropic_messages
    rcases detect_key_type_provider_cases s with h | h | h
    · have hd : fetch_api_usage s days o =
          fetch_openai_usage s days o.openai_usage o.openai_costs := by
        simp [fetch_api_usage, h]
      rw [hd] at heq
      have hprov := fetch_openai_usage_ok_provider s days o.openai_usage o.openai_costs _ heq
      rw [hp] at hprov
      exact absurd hprov (by decide)
    · have hd : fetch_api_usage s days o =
          Except.ok (fetch_brave_usage s days o.brave_search o.brave_usage) := by
        simp [fetch_api_usage, h]
      rw [hd, Except.ok.injEq] at heq
      have hprov := congrArg ProbeResult.provider heq
      rw [fetch_brave_usage_provider, hp] at hprov
      exact absurd hprov (by decide)
    · have hd : fetch_api_usage s days o =
          Except.ok { status := "unsupported"
                      message := some ("Unsupported API provider: " ++
                        (detect_key_type s).provider)
                      error := some ("API key format not recognized: " ++
                        ⟨s.data.take 10⟩ ++ "...") } := by
        simp [fetch_api_usage, h]
      rw [hd, Except.ok.injEq] at heq
      have hprov := congrArg ProbeResult.provider heq
      rw [hp] at hprov
      simp at hprov

/-- C6: `detect_key_type` is total (a function into `KeyInfo`, one result
for every string, determinism being inherent in the functional embedding),
and when none of its rules matches the result is the default
`(unknown, unknown)`. -/
theorem detect_key_type_total_default (s : String) :
    (detect_key_type s = ⟨"openai", "admin"⟩ ∨ detect_key_type s = ⟨"openai", "project"⟩ ∨
     detect_key_type s = ⟨"brave", "search"⟩ ∨ detect_key_type s = ⟨"unknown", "unknown"⟩) ∧
    (py_startswith s "sk-admin-" = false → py_startswith s "sk-proj-" = false →
     py_startswith s "sk-" = false → py_startswith s "sk-ant-" = false →
     py_startswith s "BSA" = false → detect_key_type s = ⟨"unknown", "unknown"⟩) := by
  refine ⟨detect_key_type_cases s, ?_⟩
  intro h1 h2 h3 h4 h5
  simp [detect_key_type, h1, h2, h3, h4, h5]

/-- Witness for C6 at the concrete input "zz". -/
theorem detect_key_type_total_default_witness :
    detect_key_type "zz" = ⟨"unknown", "unknown"⟩ :=
  (detect_key_type_total_default "zz").2 (by decide) (by decide) (by decide) (by decide)
    (by decide)

/-- C5 counterexample: a bare `sk-` key of length 63 (> 60) is classified
`(openai, project)`, not `(deepseek, api)`: the code has no deepseek
length rule. -/
theorem detect_key_type_long_sk_counterexample :
    py_startswith "sk-aaaaaaaaaaaaaaaaaaaaaaaaaaaaaaaaaaaaaaaaaaaaaaaaaaaaaaaaaaaa" "sk-" = true ∧
    py_startswith "sk-aaaaaaaaaaaaaaaaaaaaaaaaaaaaaaaaaaaaaaaaaaaaaaaaaaaaaaaaaaaa" "sk-admin-" = false ∧
    py_startswith "sk-aaaaaaaaaaaaaaaaaaaaaaaaaaaaaaaaaaaaaaaaaaaaaaaaaaaaaaaaaaaa" "sk-proj-" = false ∧
    60 < ("sk-aaaaaaaaaaaaaaaaaaaaaaaaaaaaaaaaaaaaaaaaaaaaaaaaaaaaaaaaaaaa" : String).length ∧
    detect_key_type "sk-aaaaaaaaaaaaaaaaaaaaaaaaaaaaaaaaaaaaaaaaaaaaaaaaaaaaaaaaaaaa" ≠
      ⟨"deepseek", "api"⟩ := by decide

/-- C5 amended: every string beginning with `sk-` that does not begin with
`sk-admin-` or `sk-proj-` is classified `(openai, project)` regardless of
its length. -/
theorem detect_key_type_bare_sk (s : String)
    (h : py_startswith s "sk-" = true)
    (h1 : py_startswith s "sk-admin-" = false)
    (h2 : py_startswith s "sk-proj-" = false) :
    detect_key_type s = ⟨"openai", "project"⟩ := by
  simp [detect_key_type, h, h1, h2]

/-- Witness for the amended C5 at a concrete input. -/
theorem detect_key_type_bare_sk_witness :
    detect_key_type "sk-hello" = ⟨"openai", "project"⟩ :=
  detect_key_type_bare_sk "sk-hello" (by decide) (by decide) (by decide)

/-- C9: `mask_api_key` returns the first 12 characters, "...", and the last
6 characters when the secret is longer than 20 characters, and the first 8
characters followed by "..." otherwise. -/
theorem mask_api_key_spec (s : String) :
    (20 < s.length →
      (mask_api_key s).data =
        s.data.take 12 ++ "...".data ++ (s.data.reverse.take 6).reverse) ∧
    (s.length ≤ 20 → (mask_api_key s).data = s.data.take 8 ++ "...".data) := by
  constructor
  · intro h
    unfold mask_api_key
    rw [if_pos h]
    show s.data.take 12 ++ "...".data ++ s.data.drop (s.length - 6) =
      s.data.take 12 ++ "...".data ++ (s.data.reverse.take 6).reverse
    rw [List.take_reverse, List.reverse_reverse, String.length_data]
  · intro h
    unfold mask_api_key
    rw [if_neg (by omega)]
    rfl

/-- Witness for C9 at the spec's own example (length 34 > 20). -/
theorem mask_api_key_spec_witness :
    (mask_api_key "sk-proj-abcdefghijklmnopqrstuvwxyz").data =
      ("sk-proj-abcdefghijklmnopqrstuvwxyz" : String).data.take 12 ++ "...".data ++
      (("sk-proj-abcdefghijklmnopqrstuvwxyz" : String).data.reverse.take 6).reverse :=
  (mask_api_key_spec "sk-proj-abcdefghijklmnopqrstuvwxyz").1 (by decide)

/-- C10: for a secret of length at most 8 the mask is the whole secret
followed by "...": the masked form reveals the full credential. -/
theorem mask_api_key_short_reveals (s : String) (h : s.length ≤ 8) :
    mask_api_key s = s ++ "..." := by
  unfold mask_api_key
  rw [if_neg (by omega)]
  have ht : s.data.take 8 = s.data :=
    List.take_of_length_le (by rw [String.length_data]; exact h)
  rw [ht]

/-- Witness for C10 at a concrete short secret. -/
theorem mask_api_key_short_reveals_witness :
    mask_api_key "abc" = "abc" ++ "..." :=
  mask_api_key_short_reveals "abc" (by decide)

/-- C4: `get_error_details` agrees everywhere with the spec-side model of
the error-explanation mapper: the scope-substring check wins regardless of
status code, the codes 401, 403, 404, 429, 500 have their bespoke
explanations, and every other code — including an absent one — yields the
generic Unknown Error explanation, whose description is the raw message. -/
theorem get_error_details_spec (error_message : String) (status_code : Option Nat) :
    get_error_details error_message status_code = explainSpecModel error_message status_code ∧
    (unknown_error_details error_message).description = error_message := by
  refine ⟨?_, rfl⟩
  unfold get_error_details explainSpecModel
  by_cases hs : (py_contains error_message "Missing scopes" ||
      py_contains error_message "api.model.read") = true
  · rw [if_pos hs, if_pos hs]
  · rw [if_neg hs, if_neg hs]
    cases status_code with
    | none => rfl
    | some c =>
      show (error_mappings.lookup c).getD (unknown_error_details error_message) =
        (if c = 401 then details_401
         else if c = 403 then details_403
         else if c = 404 then details_404
         else if c = 429 then details_429
         else if c = 500 then details_500
         else unknown_error_details error_message)
      by_cases h1 : c = 401
      · subst h1; rfl
      by_cases h2 : c = 403
      · subst h2; rfl
      by_cases h3 : c = 404
      · subst h3; rfl
      by_cases h4 : c = 429
      · subst h4; rfl
      by_cases h5 : c = 500
      · subst h5; rfl
      have hnone : error_mappings.lookup c = none := by
        simp [error_mappings, List.lookup_eq_none_iff]
        exact ⟨h1, h2, h4, h5, h3⟩
      rw [hnone, if_neg h1, if_neg h2, if_neg h3, if_neg h4, if_neg h5]
      rfl

/-- C3 counterexample: both steps return HTTP 200, yet the status is
`partial`, not `success`, when the usage body fails to parse; and with a
200 usage body parsing to a non-dict JSON value the probe does not return
a status at all — it raises an uncaught `AttributeError`.  So the final
status is not determined solely by which steps returned HTTP 200. -/
theorem fetch_openai_usage_status_counterexample :
    (fetch_openai_usage "k" 30
        (HttpOutcome.response 200 "bad" (JsonOutcome.parseFail "Expecting value"))
        (HttpOutcome.response 200 "costs" (JsonOutcome.dict "costs"))).map ProbeResult.status =
      Except.ok "partial" ∧
    fetch_openai_usage "k" 30
        (HttpOutcome.response 200 "[]" (JsonOutcome.nonDict "[]"))
        (HttpOutcome.response 200 "costs" (JsonOutcome.dict "costs")) =
      Except.error "AttributeError" := by
  constructor <;> rfl

/-- C3 amended: whenever the usage step does not take the uncaught
`AttributeError` path (HTTP 200 with a non-dict JSON body), the OpenAI
probe returns a result whose status is determined by step success, where
the usage step succeeds iff it returned HTTP 200 with a body parsing to a
JSON dict and the costs step succeeds iff it returned HTTP 200 with a
body parsing as JSON: `success` if both steps succeeded, `partial` if
exactly one did, `no_usage_access` with an explanatory message if neither
did; the costs step is consumed whatever the usage step returned, and on
a partial failure the failing step's error field is populated while the
successful payload is present. -/
theorem fetch_openai_usage_status (api_key : String) (days : Nat) (uo co : HttpOutcome)
    (h : usageStepRaises uo = false) :
    ∃ r, fetch_openai_usage api_key days uo co = Except.ok r ∧
      ((r.status = "success" ↔ (usageStepOk uo = true ∧ costsStepOk co = true)) ∧
       (r.status = "partial" ↔ ¬(usageStepOk uo = costsStepOk co)) ∧
       (r.status = "no_usage_access" ↔
         (usageStepOk uo = false ∧ costsStepOk co = false)) ∧
       (usageStepOk uo = false → costsStepOk co = false →
         r.message = some "API key cannot access usage monitoring endpoints") ∧
       (costsStepOk co = true → r.costs.isSome = true) ∧
       (usageStepOk uo = true → costsStepOk co = false →
         r.usage.isSome = true ∧ r.costs_error.isSome = true) ∧
       (usageStepOk uo = false → costsStepOk co = true →
         r.costs.isSome = true ∧ r.usage_error.isSome = true)) := by
  rcases uo with ⟨c, t, b⟩ | e <;> rcases co with ⟨c2, t2, b2⟩ | e2 <;>
    (try rcases b with p | p | pe) <;> (try rcases b2 with p2 | p2 | pe2) <;>
    (try by_cases hc : (c == 200) = true) <;> (try by_cases hc2 : (c2 == 200) = true) <;>
    simp_all [fetch_openai_usage, usageStepOk, costsStepOk, usageStepRaises]

/-- Witness for the amended C3: usage step 200 with a dict body, costs
step 403 — status `partial` with the usage payload present and
`costs_error` populated. -/
theorem fetch_openai_usage_status_witness :
    ∃ r, fetch_openai_usage "k" 30
        (HttpOutcome.response 200 "u" (JsonOutcome.dict "u"))
        (HttpOutcome.response 403 "denied" (JsonOutcome.parseFail "x")) = Except.ok r ∧
      r.status = "partial" ∧ r.usage.isSome = true ∧ r.costs_error.isSome = true := by
  obtain ⟨r, hr, hp⟩ := fetch_openai_usage_status "k" 30
    (HttpOutcome.response 200 "u" (JsonOutcome.dict "u"))
    (HttpOutcome.response 403 "denied" (JsonOutcome.parseFail "x")) (by decide)
  refine ⟨r, hr, hp.2.1.mpr (by decide), ?_, ?_⟩
  · exact (hp.2.2.2.2.2.1 (by decide) (by decide)).1
  · exact (hp.2.2.2.2.2.1 (by decide) (by decide)).2

/-- C7 (code_bug evaluation): an OpenAI-classified key whose usage
endpoint returns HTTP 200 with the JSON body `[]` (a list, not a dict)
makes `usage_json.get` in the debug print at dashboard.py line 388 raise
an `AttributeError` that the `except requests.exceptions.RequestException`
clause does not catch, so the exception escapes `fetch_api_usage` instead
of being captured in the result's error fields as the claim requires. -/
theorem fetch_api_usage_uncaught_eval :
    fetch_api_usage "sk-test" 30
      ⟨HttpOutcome.response 200 "[]" (JsonOutcome.nonDict "[]"),
       HttpOutcome.response 200 "costs" (JsonOutcome.dict "costs"),
       HttpOutcome.response 200 "ok" (JsonOutcome.dict "ok"),
       HttpOutcome.response 200 "ok" (JsonOutcome.dict "ok"),
       HttpOutcome.response 200 "ok" (JsonOutcome.dict "ok")⟩ =
      Except.error "AttributeError" := by rfl

/-- C8: when the detected provider is none of `openai`, `anthropic`,
`brave`, the probe result does not depend on the oracle at all (no network
call is consumed) and is the `unsupported` status, with a message naming
the detected provider string. -/
theorem fetch_api_usage_unsupported (api_key : String) (days : Nat) (o o2 : NetOracle)
    (h1 : ((detect_key_type api_key).provider == "openai") = false)
    (h2 : ((detect_key_type api_key).provider == "anthropic") = false)
    (h3 : ((detect_key_type api_key).provider == "brave") = false) :
    fetch_api_usage api_key days o = fetch_api_usage api_key days o2 ∧
    (fetch_api_usage api_key days o).map ProbeResult.status = Except.ok "unsupported" ∧
    (fetch_api_usage api_key days o).map ProbeResult.message =
      Except.ok (some ("Unsupported API provider: " ++ (detect_key_type api_key).provider)) := by
  simp [fetch_api_usage, h1, h2, h3, Except.map]

/-- Witness for C8: an unrecognized key with two different oracles. -/
theorem fetch_api_usage_unsupported_witness :
    fetch_api_usage "hello" 30
        ⟨.netError "a", .netError "b", .netError "c", .netError "d", .netError "e"⟩ =
      fetch_api_usage "hello" 30
        ⟨.response 200 "x" (.dict "x"), .response 200 "x" (.dict "x"),
         .response 200 "x" (.dict "x"), .response 200 "x" (.dict "x"),
         .response 200 "x" (.dict "x")⟩ ∧
    (fetch_api_usage "hello" 30
        ⟨.netError "a", .netError "b", .netError "c", .netError "d",
         .netError "e"⟩).map ProbeResult.status = Except.ok "unsupported" ∧
    (fetch_api_usage "hello" 30
        ⟨.netError "a", .netError "b", .netError "c", .netError "d",
         .netError "e"⟩).map ProbeResult.message =
      Except.ok (some ("Unsupported API provider: " ++ (detect_key_type "hello").provider)) :=
  fetch_api_usage_unsupported "hello" 30
    ⟨.netError "a", .netError "b", .netError "c", .netError "d", .netError "e"⟩
    ⟨.response 200 "x" (.dict "x"), .response 200 "x" (.dict "x"),
     .response 200 "x" (.dict "x"), .response 200 "x" (.dict "x"),
     .response 200 "x" (.dict "x")⟩
    (by decide) (by decide) (by decide)
